import Mathlib

/-!
# yoda: a shallow embedding of `yoda.go`

The package keeps one package-level variable, `clean_start`, and offers eight
comparison primitives that each return a `Truth`, plus the two verification
methods `Must` and `Wont`.  Go code is embedded as follows.

* A Go call returns an `Outcome`: it returns normally, it panics, or it ends the
  goroutine (`runtime.Goexit`, which is what `t.FailNow` and so `t.Fatalf` do).
  The package variable is passed explicitly (`Globals`), and it survives a panic
  and a goroutine exit, as in Go.  A call that never returns has no `Outcome`.
* The values an `interface{}` can hold are the fragment `Value`: the untyped nil,
  booleans, ints, float64 and complex128 (by bit patterns), strings, named
  structs, arrays, pointers, slices, maps, channels and functions.  A field or
  element of interface type is the value it holds.  The other sized numeric kinds
  behave as `int` and `float64` do and are left out.
* `fmt.Sprintf` with the verbs `%v` and `%#v` is the library's business: the two
  renderers are the fields of `Fmt`, and every statement holds for every `Fmt`.
  The verb `%p` is embedded from `fmt`, because `Same` depends on it.
* `os.Getwd` and `runtime.Caller(2)` are read from an `Env`.
* Go strings are sequences of bytes; a `Char` of a `String` stands for one byte.
-/

namespace Yoda

/-! ## Go types and values -/

/-- Go types of the fragment. -/
inductive GoType where
  | bool
  | int
  | float64
  | complex128
  | string
  | struct (name : String)
  | array (len : Nat) (elem : GoType)
  | ptr (elem : GoType)
  | slice (elem : GoType)
  | map (key elem : GoType)
  | chan (elem : GoType)
  | func (signature : String)
deriving DecidableEq, Repr

/-- Text of `reflect.Type.String()`. -/
def GoType.String : GoType → String
  | .bool => "bool"
  | .int => "int"
  | .float64 => "float64"
  | .complex128 => "complex128"
  | .string => "string"
  | .struct name => name
  | .array len elem => "[" ++ toString len ++ "]" ++ elem.String
  | .ptr elem => "*" ++ elem.String
  | .slice elem => "[]" ++ elem.String
  | .map key elem => "map[" ++ key.String ++ "]" ++ elem.String
  | .chan elem => "chan " ++ elem.String
  | .func signature => signature

/-- Values an `interface{}` argument can hold.  `nil` is the untyped nil (an
interface with no dynamic type); `nilPtr` is a nil pointer of a pointer type; a
`slice`, `map`, `chan` or `func` whose `addr` is `0` is the nil value of its type.
A map holds its keys and, at the same positions, its values. -/
inductive Value where
  | nil
  | bool (b : Bool)
  | int (i : Int)
  | float64 (bits : Nat)
  | complex128 (re im : Nat)
  | string (s : String)
  | struct (name : String) (fields : List Value)
  | array (elem : GoType) (elems : List Value)
  | nilPtr (elem : GoType)
  | ptr (elem : GoType) (addr : Nat) (pointee : Value)
  | slice (elem : GoType) (addr : Nat) (elems : List Value)
  | map (key elem : GoType) (addr : Nat) (keys vals : List Value)
  | chan (elem : GoType) (addr : Nat)
  | func (signature : String) (addr : Nat)

/-- Dynamic type by `reflect.TypeOf`; `none` is the nil `reflect.Type` that
`reflect.TypeOf(nil)` returns. -/
def TypeOf : Value → Option GoType
  | .nil => none
  | .bool _ => some .bool
  | .int _ => some .int
  | .float64 _ => some .float64
  | .complex128 _ _ => some .complex128
  | .string _ => some .string
  | .struct name _ => some (.struct name)
  | .array elem elems => some (.array elems.length elem)
  | .nilPtr elem => some (.ptr elem)
  | .ptr elem _ _ => some (.ptr elem)
  | .slice elem _ _ => some (.slice elem)
  | .map key elem _ _ _ => some (.map key elem)
  | .chan elem _ => some (.chan elem)
  | .func signature _ => some (.func signature)

/-- Test `x == nil` on an `interface{}`. -/
def Value.isNilInterface : Value → Bool
  | .nil => true
  | _ => false

/-! ## Panics and the package state -/

/-- What a panicking goroutine carries: the argument of `panic`, or a run-time
error. -/
inductive PanicValue where
  | value (v : Value)
  | runtimeError (msg : String)

/-- Test `recover() == nil` in a deferred function of a panicking goroutine.  The
package ships without a `go.mod`, so `panic(nil)` is recovered as nil; every
other panic is recovered as a non-nil value. -/
def PanicValue.recoverIsNil : PanicValue → Bool
  | .value .nil => true
  | _ => false

/-- Result of a Go call: a normal return, a panic, or the end of the goroutine by
`runtime.Goexit`, which runs the deferred functions (`recover()` returns nil in
them) and never returns to the caller. -/
inductive Outcome (α : Type) where
  | ok (a : α)
  | panic (v : PanicValue)
  | goexit

/-- Package-level variables of `yoda`. -/
structure Globals where
  clean_start : Bool
deriving DecidableEq, Repr

/-- Initial value `clean_start = true`. -/
def Globals.init : Globals := ⟨true⟩

/-- The `Truth` struct. -/
structure Truth where
  Value : Bool
  Dump : String
deriving DecidableEq, Repr

/-- A Go `func()`: it may read and write the package state through the package's
functions, and it returns, panics or ends the goroutine. -/
def Callable := Globals → Outcome Unit × Globals

/-- Argument of `panic` in `mustBeCleanStart`. -/
def misuse : PanicValue :=
  .value (.string "Yoda: darkside you have, missing Must or Wont must be!")

/-- Function `mustBeCleanStart`. -/
def mustBeCleanStart (s : Globals) : Outcome Unit × Globals :=
  if !s.clean_start then
    (.panic misuse, { s with clean_start := true })
  else
    (.ok (), { s with clean_start := false })

/-! ## reflect -/

/-- IEEE 754: the bit pattern is a NaN. -/
def f64IsNaN (bits : Nat) : Bool :=
  (bits / 2 ^ 52) % 2 ^ 11 == 2047 && bits % 2 ^ 52 != 0

/-- IEEE 754: the bit pattern is `+0` or `-0`. -/
def f64IsZero (bits : Nat) : Bool :=
  bits % 2 ^ 63 == 0

/-- Go `==` on two float64 values given by their bit patterns. -/
def f64Eq (a b : Nat) : Bool :=
  !f64IsNaN a && !f64IsNaN b && ((f64IsZero a && f64IsZero b) || a % 2 ^ 64 == b % 2 ^ 64)

mutual
/-- Go `==` on two values of comparable types held in interfaces, as a map uses
it on its keys.  Functions, slices and maps are not comparable and cannot be
keys. -/
def goEqual : Value → Value → Bool
  | .nil, .nil => true
  | .bool a, .bool b => a == b
  | .int a, .int b => a == b
  | .float64 a, .float64 b => f64Eq a b
  | .complex128 r1 i1, .complex128 r2 i2 => f64Eq r1 r2 && f64Eq i1 i2
  | .string a, .string b => a == b
  | .struct n1 f1, .struct n2 f2 => n1 == n2 && goEqualList f1 f2
  | .array e1 x1, .array e2 x2 => e1 == e2 && goEqualList x1 x2
  | .nilPtr e1, .nilPtr e2 => e1 == e2
  | .nilPtr e1, .ptr e2 a2 _ => e1 == e2 && a2 == 0
  | .ptr e1 a1 _, .nilPtr e2 => e1 == e2 && a1 == 0
  | .ptr e1 a1 _, .ptr e2 a2 _ => e1 == e2 && a1 == a2
  | .chan e1 a1, .chan e2 a2 => e1 == e2 && a1 == a2
  | _, _ => false
/-- Go `==` on the fields of two structs or the elements of two arrays. -/
def goEqualList : List Value → List Value → Bool
  | [], [] => true
  | a :: as, b :: bs => goEqual a b && goEqualList as bs
  | _, _ => false
end

/-- Method `MapIndex` of `reflect.Value`: the value stored under a key equal to
`k`, or `none` (the invalid `reflect.Value`) when there is none. -/
def MapIndex : List Value → List Value → Value → Option Value
  | k1 :: keys, v1 :: vals, k => if goEqual k1 k then some v1 else MapIndex keys vals k
  | _, _, _ => none

mutual
/-- Function `deepValueEqual` of package `reflect` on two valid values. -/
def deepValueEqual : Value → Value → Bool
  | .nil, .nil => true
  | .bool a, .bool b => a == b
  | .int a, .int b => a == b
  | .float64 a, .float64 b => f64Eq a b
  | .complex128 r1 i1, .complex128 r2 i2 => f64Eq r1 r2 && f64Eq i1 i2
  | .string a, .string b => a == b
  | .struct n1 f1, .struct n2 f2 => n1 == n2 && deepValueEqualFields f1 f2
  | .array e1 x1, .array e2 x2 =>
    e1 == e2 && x1.length == x2.length && deepValueEqualFields x1 x2
  | .nilPtr e1, .nilPtr e2 => e1 == e2
  | .nilPtr e1, .ptr e2 a2 _ => e1 == e2 && a2 == 0
  | .ptr e1 a1 _, .nilPtr e2 => e1 == e2 && a1 == 0
  | .ptr e1 a1 p1, .ptr e2 a2 p2 => e1 == e2 && (a1 == a2 || deepValueEqual p1 p2)
  | .slice e1 a1 x1, .slice e2 a2 x2 =>
    e1 == e2 && (a1 == 0) == (a2 == 0) && x1.length == x2.length &&
      (a1 == a2 || deepValueEqualFields x1 x2)
  | .map k1 e1 a1 keys1 vals1, .map k2 e2 a2 keys2 vals2 =>
    k1 == k2 && e1 == e2 && (a1 == 0) == (a2 == 0) && keys1.length == keys2.length &&
      (a1 == a2 || deepValueEqualEntries keys1 vals1 keys2 vals2)
  | .chan e1 a1, .chan e2 a2 => e1 == e2 && a1 == a2
  | .func s1 a1, .func s2 a2 => s1 == s2 && (a1 == 0 && a2 == 0)
  | _, _ => false
/-- Loop over the fields of two structs, or the elements of two arrays or
slices, in `deepValueEqual`. -/
def deepValueEqualFields : List Value → List Value → Bool
  | [], [] => true
  | a :: as, b :: bs => deepValueEqual a b && deepValueEqualFields as bs
  | _, _ => false
/-- Loop over the entries of the first map in `deepValueEqual`: each key is
looked up in the second map, and the two values are compared. -/
def deepValueEqualEntries : List Value → List Value → List Value → List Value → Bool
  | k :: keys1, v1 :: vals1, keys2, vals2 =>
    (match MapIndex keys2 vals2 k with
      | none => false
      | some v2 => deepValueEqual v1 v2) &&
    deepValueEqualEntries keys1 vals1 keys2 vals2
  | _, _, _, _ => true
end

/-- Function `reflect.DeepEqual`. -/
def DeepEqual (x y : Value) : Bool :=
  if x.isNilInterface || y.isNilInterface then
    x.isNilInterface && y.isNilInterface
  else
    deepValueEqual x y

/-- Method `IsNil` of `reflect.Value`, on `reflect.ValueOf(v)` for a non-nil
interface `v`: it panics unless the kind is nilable. -/
def IsNil : Value → Outcome Bool
  | .nilPtr _ => .ok true
  | .ptr _ _ _ => .ok false
  | .slice _ addr _ => .ok (addr == 0)
  | .map _ _ addr _ _ => .ok (addr == 0)
  | .chan _ addr => .ok (addr == 0)
  | .func _ addr => .ok (addr == 0)
  | .nil => .panic (.runtimeError "reflect: call of reflect.Value.IsNil on zero Value")
  | .bool _ => .panic (.runtimeError "reflect: call of reflect.Value.IsNil on bool Value")
  | .int _ => .panic (.runtimeError "reflect: call of reflect.Value.IsNil on int Value")
  | .float64 _ => .panic (.runtimeError "reflect: call of reflect.Value.IsNil on float64 Value")
  | .complex128 _ _ =>
    .panic (.runtimeError "reflect: call of reflect.Value.IsNil on complex128 Value")
  | .string _ => .panic (.runtimeError "reflect: call of reflect.Value.IsNil on string Value")
  | .struct _ _ => .panic (.runtimeError "reflect: call of reflect.Value.IsNil on struct Value")
  | .array _ _ => .panic (.runtimeError "reflect: call of reflect.Value.IsNil on array Value")

/-! ## fmt -/

/-- Renderers of package `fmt`: `sprintV x` is `fmt.Sprintf("%v", x)` and
`sprintSharpV x` is `fmt.Sprintf("%#v", x)`. -/
structure Fmt where
  sprintV : Value → String
  sprintSharpV : Value → String

/-- Digits of `n` in base 16, most significant first, lower case. -/
def hexDigits (n : Nat) : List Char :=
  if n < 16 then [Nat.digitChar n] else hexDigits (n / 16) ++ [Nat.digitChar (n % 16)]
termination_by n
decreasing_by omega

/-- Text of `fmt.Sprintf("%p", x)`: the address in hexadecimal after `0x` for a
pointer, slice, map, channel or function, and the bad-verb text for every other
value. -/
def sprintP (fmt : Fmt) : Value → String
  | .nil => "%!p(<nil>)"
  | .nilPtr _ => "0x" ++ String.mk (hexDigits 0)
  | .ptr _ addr _ => "0x" ++ String.mk (hexDigits addr)
  | .slice _ addr _ => "0x" ++ String.mk (hexDigits addr)
  | .map _ _ addr _ _ => "0x" ++ String.mk (hexDigits addr)
  | .chan _ addr => "0x" ++ String.mk (hexDigits addr)
  | .func _ addr => "0x" ++ String.mk (hexDigits addr)
  | v => "%!p(" ++ (match TypeOf v with | some t => t.String | none => "") ++ "=" ++
      fmt.sprintV v ++ ")"

/-- Function `nice`. -/
def nice (fmt : Fmt) (value : Value) : String :=
  sprintP fmt value ++ " " ++ fmt.sprintSharpV value

/-! ## The comparison primitives -/

/-- Function `Equal`. -/
def Equal (fmt : Fmt) (expected actual : Value) (s : Globals) : Outcome Truth × Globals :=
  match mustBeCleanStart s with
  | (.panic v, s1) => (.panic v, s1)
  | (.goexit, s1) => (.goexit, s1)
  | (.ok _, s1) =>
    (.ok { Value := DeepEqual expected actual,
           Dump := fmt.sprintSharpV expected ++ " vs. " ++ fmt.sprintSharpV actual }, s1)

/-- Function `Nil`.  The deferred function is registered after
`mustBeCleanStart` has returned, so it recovers only a panic of the body; where
`recover()` is nil the named result keeps its zero value. -/
def Nil (fmt : Fmt) (actual : Value) (s : Globals) : Outcome Truth × Globals :=
  match mustBeCleanStart s with
  | (.panic v, s1) => (.panic v, s1)
  | (.goexit, s1) => (.goexit, s1)
  | (.ok _, s1) =>
    let body : Outcome Truth :=
      match TypeOf actual with
      | none => .ok { Value := true, Dump := fmt.sprintSharpV actual }
      | some _ =>
        match IsNil actual with
        | .ok b => .ok { Value := b, Dump := fmt.sprintSharpV actual }
        | .panic v => .panic v
        | .goexit => .goexit
    match body with
    | .ok result => (.ok result, s1)
    | .panic v =>
      if v.recoverIsNil then (.ok { Value := false, Dump := "" }, s1)
      else (.ok { Value := false, Dump := fmt.sprintSharpV actual }, s1)
    | .goexit => (.goexit, s1)

/-- Function `Panic`.  The deferred function is registered after
`mustBeCleanStart` has returned, so it recovers only a panic of `function`.  A
panic is always stopped by the call of `recover()`; the result is set to
`Truth{true, ""}` only where `recover() != nil`, and keeps its zero value
`Truth{false, ""}` otherwise.  A goroutine exit is not stopped. -/
def Panic (function : Callable) (s : Globals) : Outcome Truth × Globals :=
  match mustBeCleanStart s with
  | (.panic v, s1) => (.panic v, s1)
  | (.goexit, s1) => (.goexit, s1)
  | (.ok _, s1) =>
    match function s1 with
    | (.ok _, s2) => (.ok { Value := false, Dump := "" }, s2)
    | (.panic v, s2) =>
      if v.recoverIsNil then (.ok { Value := false, Dump := "" }, s2)
      else (.ok { Value := true, Dump := "" }, s2)
    | (.goexit, s2) => (.goexit, s2)

/-- Function `Same`. -/
def Same (fmt : Fmt) (expected actual : Value) (s : Globals) : Outcome Truth × Globals :=
  match mustBeCleanStart s with
  | (.panic v, s1) => (.panic v, s1)
  | (.goexit, s1) => (.goexit, s1)
  | (.ok _, s1) =>
    (.ok { Value := nice fmt expected == nice fmt actual && DeepEqual actual expected,
           Dump := fmt.sprintSharpV actual }, s1)

/-- Function `Text`. -/
def Text (fmt : Fmt) (expected actual : Value) (s : Globals) : Outcome Truth × Globals :=
  match mustBeCleanStart s with
  | (.panic v, s1) => (.panic v, s1)
  | (.goexit, s1) => (.goexit, s1)
  | (.ok _, s1) =>
    (.ok { Value := fmt.sprintV expected == fmt.sprintV actual,
           Dump := fmt.sprintSharpV expected ++ " vs. " ++ fmt.sprintSharpV actual }, s1)

/-- Type assertion `actual.(bool)`. -/
def assertBool : Value → Outcome Bool
  | .bool b => .ok b
  | v => .panic (.runtimeError ("interface conversion: interface \x7b\x7d is " ++
      (match TypeOf v with | some t => t.String | none => "nil") ++ ", not bool"))

/-- Function `True`. -/
def True (fmt : Fmt) (actual : Value) (s : Globals) : Outcome Truth × Globals :=
  match mustBeCleanStart s with
  | (.panic v, s1) => (.panic v, s1)
  | (.goexit, s1) => (.goexit, s1)
  | (.ok _, s1) =>
    match assertBool actual with
    | .panic v => (.panic v, s1)
    | .goexit => (.goexit, s1)
    | .ok b => (.ok { Value := b, Dump := fmt.sprintSharpV actual }, s1)

/-- Call `reflect.TypeOf(actual).String()`: a method call on the nil
`reflect.Type` is a nil dereference. -/
def typeString (actual : Value) : Outcome String :=
  match TypeOf actual with
  | none => .panic (.runtimeError "invalid memory address or nil pointer dereference")
  | some t => .ok t.String

/-- Function `Type`. -/
def Type' (fmt : Fmt) (expected : String) (actual : Value) (s : Globals) :
    Outcome Truth × Globals :=
  match mustBeCleanStart s with
  | (.panic v, s1) => (.panic v, s1)
  | (.goexit, s1) => (.goexit, s1)
  | (.ok _, s1) =>
    match typeString actual with
    | .panic v => (.panic v, s1)
    | .goexit => (.goexit, s1)
    | .ok name =>
      (.ok { Value := expected == name,
             Dump := fmt.sprintSharpV (.string expected) ++ " vs. " ++
               fmt.sprintSharpV (.string name) }, s1)

/-- A run of `quick.Check(property, nil)`: it calls the property, which may use
the package, and it returns the error (`none` is the nil error, `some e` an
error whose `Error()` text is `e`) or lets a panic or a goroutine exit of the
property through. -/
def QuickCheck := Globals → Outcome (Option String) × Globals

/-- Function `All`. -/
def All (check : QuickCheck) (s : Globals) : Outcome Truth × Globals :=
  match mustBeCleanStart s with
  | (.panic v, s1) => (.panic v, s1)
  | (.goexit, s1) => (.goexit, s1)
  | (.ok _, s1) =>
    match check s1 with
    | (.panic v, s2) => (.panic v, s2)
    | (.goexit, s2) => (.goexit, s2)
    | (.ok err, s2) =>
      (.ok { Value := err.isNone,
             Dump := "try " ++ (match err with | none => "<nil>" | some e => e) }, s2)

/-! ## The verification gate -/

/-- What the process reads from its surroundings in `failedTo` and `relative`:
the result of `os.Getwd()` (`none` when it returns an error) and the result of
`runtime.Caller(2)`, the frame that called `Must` or `Wont`. -/
structure Env where
  Getwd : Option String
  callerFile : String
  callerLine : Int
  callerOk : Bool

/-- The test handle `*testing.T`, as far as `Fatalf` writes it: the messages
logged, and whether the test was failed and stopped. -/
structure TestingT where
  output : List String
  failed : Bool
deriving DecidableEq, Repr

/-- A fresh test handle. -/
def TestingT.fresh : TestingT := ⟨[], false⟩

/-- Method `Fatalf` with the message already formatted, as far as it writes the
handle: log the message and mark the test failed.  It then ends the goroutine,
which is the `Outcome.goexit` of the caller `failedTo`. -/
def TestingT.Fatalf (be : TestingT) (msg : String) : TestingT :=
  { output := be.output ++ [msg], failed := true }

/-- Function `strings.HasPrefix`. -/
def HasPrefix (s pre : String) : Bool :=
  pre.data.isPrefixOf s.data

/-- Function `relative`.  The slice expression `filename[len(dir)+1:]` panics
when `len(dir)+1` exceeds `len(filename)`. -/
def relative (env : Env) (filename : String) : Outcome String :=
  match env.Getwd with
  | none => .ok filename
  | some dir =>
    if HasPrefix filename dir then
      if dir.length + 1 ≤ filename.length then
        .ok (String.mk (filename.data.drop (dir.length + 1)))
      else
        .panic (.runtimeError ("slice bounds out of range [" ++ toString (dir.length + 1) ++
          ":" ++ toString filename.length ++ "]"))
    else
      .ok filename

/-- Text of `fmt.Sprintf("\n%s failed at %s:%d; Reason ~ %v!!!", what, loc, line, dump)`. -/
def failureMessage (what loc : String) (line : Int) (dump : String) : String :=
  "\n" ++ what ++ " failed at " ++ loc ++ ":" ++ toString line ++ "; Reason ~ " ++ dump ++ "!!!"

/-- Function `failedTo`: the location is rendered first; `be.Fatalf` then records
the failure and ends the goroutine. -/
def failedTo (env : Env) (be : TestingT) (what dump : String) : Outcome Unit × TestingT :=
  let file := if !env.callerOk then "<unknown>" else env.callerFile
  let line := if !env.callerOk then 0 else env.callerLine
  match relative env file with
  | .panic v => (.panic v, be)
  | .goexit => (.goexit, be)
  | .ok loc => (.goexit, be.Fatalf (failureMessage what loc line dump))

/-- Method `Must`. -/
def Must (env : Env) (the : Truth) (be : TestingT) (s : Globals) :
    Outcome Unit × TestingT × Globals :=
  let s1 := { s with clean_start := true }
  if !the.Value then
    match failedTo env be "Must" the.Dump with
    | (r, be1) => (r, be1, s1)
  else
    (.ok (), be, s1)

/-- Method `Wont`. -/
def Wont (env : Env) (the : Truth) (be : TestingT) (s : Globals) :
    Outcome Unit × TestingT × Globals :=
  let s1 := { s with clean_start := true }
  if the.Value then
    match failedTo env be "Wont" the.Dump with
    | (r, be1) => (r, be1, s1)
  else
    (.ok (), be, s1)

/-! ## Invocations -/

/-- An invocation of one of the eight comparison primitives with its arguments. -/
inductive Prim where
  | callEqual (expected actual : Value)
  | callNil (actual : Value)
  | callPanic (function : Callable)
  | callSame (expected actual : Value)
  | callText (expected actual : Value)
  | callTrue (actual : Value)
  | callType (expected : String) (actual : Value)
  | callAll (check : QuickCheck)

/-- Run an invocation. -/
def Prim.run (fmt : Fmt) : Prim → Globals → Outcome Truth × Globals
  | .callEqual expected actual => Equal fmt expected actual
  | .callNil actual => Nil fmt actual
  | .callPanic function => Panic function
  | .callSame expected actual => Same fmt expected actual
  | .callText expected actual => Text fmt expected actual
  | .callTrue actual => True fmt actual
  | .callType expected actual => Type' fmt expected actual
  | .callAll check => All check

/-- A `func()` whose body is the single statement that invokes `p` and drops the
Truth, like `func() { yoda.True(true) }` in `TestPanicOnWrongUse`. -/
def Prim.asCallable (fmt : Fmt) (p : Prim) : Callable := fun s =>
  match p.run fmt s with
  | (.ok _, s1) => (.ok (), s1)
  | (.panic v, s1) => (.panic v, s1)
  | (.goexit, s1) => (.goexit, s1)

/-- A property for `All` whose body invokes `p`, drops the Truth and returns
`true`, seen through `quick.Check`: the first call of the property decides. -/
def Prim.asCheck (fmt : Fmt) (p : Prim) : QuickCheck := fun s =>
  match p.run fmt s with
  | (.ok _, s1) => (.ok none, s1)
  | (.panic v, s1) => (.panic v, s1)
  | (.goexit, s1) => (.goexit, s1)

/-- The code handed to a primitive (the callable of `Panic`, the property of
`All`), entered with the guard not ready, leaves the guard not ready; primitives
that take only values run no such code. -/
def Prim.quiet : Prim → Bool
  | .callPanic function => (function ⟨false⟩).2 == ⟨false⟩
  | .callAll check => (check ⟨false⟩).2 == ⟨false⟩
  | _ => true

/-- The body of a primitive, after its guard check, returns: `True` is given a
boolean, `Type` a value with a dynamic type, the callable of `Panic` returns or
panics (it does not end the goroutine), and the run of `quick.Check` in `All`
returns. -/
def Prim.bodyReturns : Prim → Bool
  | .callTrue (.bool _) => true
  | .callTrue _ => false
  | .callType _ .nil => false
  | .callPanic function => match (function ⟨false⟩).1 with
    | .goexit => false
    | _ => true
  | .callAll check => match (check ⟨false⟩).1 with
    | .ok _ => true
    | _ => false
  | _ => true

/-- The kind is one `reflect.Value.IsNil` accepts: `Pointer`, `Slice`, `Map`,
`Chan` or `Func`. -/
def Value.nilable : Value → Bool
  | .nilPtr _ => true
  | .ptr _ _ _ => true
  | .slice _ _ _ => true
  | .map _ _ _ _ _ => true
  | .chan _ _ => true
  | .func _ _ => true
  | _ => false

/-- The result was a panic. -/
def Outcome.aborted {α : Type} : Outcome α → Bool
  | .panic _ => true
  | _ => false

/-- The call returned, or it panicked with a value that `recover()` gives back as
non-nil. -/
def Outcome.returnedOrPanicked {α : Type} : Outcome α → Bool
  | .ok _ => true
  | .panic v => !v.recoverIsNil
  | .goexit => false

/-- The wording of the specification for `Nil`: the untyped nil, or a nil value of
a nilable type (a pointer, slice, map, channel or function). -/
def Value.isAbsent : Value → Bool
  | .nil => true
  | .nilPtr _ => true
  | .slice _ addr _ => addr == 0
  | .map _ _ addr _ _ => addr == 0
  | .chan _ addr => addr == 0
  | .func _ addr => addr == 0
  | _ => false

mutual
/-- The value is not, and holds in no field of a struct and no element of an
array (to any depth), a NaN, a complex number with a NaN part, or a non-nil
function value.  What lies behind a pointer, a slice or a map does not count. -/
def Value.selfEqual : Value → Bool
  | .float64 bits => !f64IsNaN bits
  | .complex128 re im => !f64IsNaN re && !f64IsNaN im
  | .func _ addr => addr == 0
  | .struct _ fields => Value.selfEqualFields fields
  | .array _ elems => Value.selfEqualFields elems
  | _ => true
/-- Every field or element of the list satisfies `Value.selfEqual`. -/
def Value.selfEqualFields : List Value → Bool
  | [] => true
  | a :: as => a.selfEqual && Value.selfEqualFields as
end

/-! ## The misuse guard -/

theorem mustBeCleanStart_ready (s : Globals) (h : s.clean_start = true) :
    mustBeCleanStart s = (.ok (), ⟨false⟩) := by
  simp [mustBeCleanStart, h]

theorem mustBeCleanStart_notReady (s : Globals) (h : s.clean_start = false) :
    mustBeCleanStart s = (.panic misuse, ⟨true⟩) := by
  simp [mustBeCleanStart, h]

/-- Every primitive invoked with the guard not ready aborts with the misuse
message and leaves the guard ready. -/
theorem run_notReady (fmt : Fmt) (p : Prim) (s : Globals) (h : s.clean_start = false) :
    p.run fmt s = (.panic misuse, ⟨true⟩) := by
  cases p <;>
    simp [Prim.run, Equal, Nil, Panic, Same, Text, True, Type', All,
      mustBeCleanStart_notReady s h]

/-- A primitive that returns a Truth was invoked with the guard ready. -/
theorem ready_of_run_ok (fmt : Fmt) (p : Prim) (s s1 : Globals) (t : Truth)
    (hp : p.run fmt s = (.ok t, s1)) : s.clean_start = true := by
  cases h : s.clean_start with
  | true => rfl
  | false => rw [run_notReady fmt p s h] at hp; simp at hp

/-- A primitive that returns a Truth, and whose callable keeps the guard, leaves
the guard not ready. -/
theorem notReady_after_run (fmt : Fmt) (p : Prim) (s s1 : Globals) (t : Truth)
    (hquiet : p.quiet = true) (hp : p.run fmt s = (.ok t, s1)) : s1 = ⟨false⟩ := by
  have hs := mustBeCleanStart_ready s (ready_of_run_ok fmt p s s1 t hp)
  cases p with
  | callEqual e a => simp [Prim.run, Equal, hs] at hp; exact hp.2.symm
  | callNil a =>
    simp only [Prim.run, Nil, hs] at hp
    split at hp
    · simp at hp; exact hp.2.symm
    · split at hp <;> simp at hp <;> exact hp.2.symm
    · simp at hp
  | callPanic f =>
    simp only [Prim.run, Panic, hs] at hp
    simp only [Prim.quiet, beq_iff_eq] at hquiet
    split at hp
    · rename_i h; simp at hp; rw [← hp.2, ← hquiet, h]
    · rename_i h; split at hp <;> simp at hp <;> rw [← hp.2, ← hquiet, h]
    · simp at hp
  | callSame e a => simp [Prim.run, Same, hs] at hp; exact hp.2.symm
  | callText e a => simp [Prim.run, Text, hs] at hp; exact hp.2.symm
  | callTrue a =>
    simp only [Prim.run, True, hs] at hp
    split at hp <;> simp at hp; exact hp.2.symm
  | callType e a =>
    simp only [Prim.run, Type', hs] at hp
    split at hp <;> simp at hp; exact hp.2.symm
  | callAll c =>
    simp only [Prim.run, All, hs] at hp
    simp only [Prim.quiet, beq_iff_eq] at hquiet
    split at hp <;> rename_i h <;> simp at hp; rw [← hp.2, ← hquiet, h]

/-- A primitive invoked with the guard ready, whose body returns, returns a Truth. -/
theorem run_ready_returns (fmt : Fmt) (q : Prim) (s : Globals) (hs : s.clean_start = true)
    (hq : q.bodyReturns = true) : ∃ t s2, q.run fmt s = (.ok t, s2) := by
  have h := mustBeCleanStart_ready s hs
  cases q with
  | callEqual e a => simp only [Prim.run, Equal, h]; exact ⟨_, _, rfl⟩
  | callNil a =>
    cases a <;> simp only [Prim.run, Nil, h, TypeOf, IsNil, PanicValue.recoverIsNil] <;>
      exact ⟨_, _, rfl⟩
  | callPanic f =>
    simp only [Prim.bodyReturns] at hq
    simp only [Prim.run, Panic, h]
    split
    · exact ⟨_, _, rfl⟩
    · split <;> exact ⟨_, _, rfl⟩
    · rename_i h2; rw [h2] at hq; simp at hq
  | callSame e a => simp only [Prim.run, Same, h]; exact ⟨_, _, rfl⟩
  | callText e a => simp only [Prim.run, Text, h]; exact ⟨_, _, rfl⟩
  | callTrue a =>
    cases a <;> simp [Prim.bodyReturns] at hq
    simp only [Prim.run, True, h, assertBool]; exact ⟨_, _, rfl⟩
  | callType e a =>
    cases a <;> simp [Prim.bodyReturns] at hq <;>
      simp only [Prim.run, Type', h, typeString, TypeOf] <;> exact ⟨_, _, rfl⟩
  | callAll c =>
    simp only [Prim.bodyReturns] at hq
    simp only [Prim.run, All, h]
    split
    · rename_i h2; rw [h2] at hq; simp at hq
    · rename_i h2; rw [h2] at hq; simp at hq
    · exact ⟨_, _, rfl⟩

/-- A primitive invoked with the guard ready ends with the misuse abort only if
it is `All` and the run of its property ends with it. -/
theorem misuse_only_from_All (fmt : Fmt) (q : Prim) (g : Globals)
    (hq : q.run fmt ⟨true⟩ = (.panic misuse, g)) :
    ∃ c, q = .callAll c ∧ c ⟨false⟩ = (.panic misuse, g) := by
  have h : mustBeCleanStart ⟨true⟩ = (.ok (), ⟨false⟩) := rfl
  cases q with
  | callEqual e a => simp [Prim.run, Equal, h] at hq
  | callNil a =>
    simp only [Prim.run, Nil, h] at hq
    split at hq
    · simp at hq
    · split at hq <;> simp at hq
    · simp at hq
  | callPanic f =>
    simp only [Prim.run, Panic, h] at hq
    split at hq
    · simp at hq
    · split at hq <;> simp at hq
    · simp at hq
  | callSame e a => simp [Prim.run, Same, h] at hq
  | callText e a => simp [Prim.run, Text, h] at hq
  | callTrue a =>
    simp only [Prim.run, True, h] at hq
    cases a <;> simp [assertBool, misuse] at hq
  | callType e a =>
    simp only [Prim.run, Type', h] at hq
    cases a <;> simp [typeString, TypeOf, misuse] at hq
  | callAll c =>
    refine ⟨c, rfl, ?_⟩
    simp only [Prim.run, All, h] at hq
    split at hq
    · rename_i v s2 h2
      simp only [Prod.mk.injEq, Outcome.panic.injEq] at hq
      rw [h2, hq.1, hq.2]
    · simp at hq
    · simp at hq

/-! ## C1: a second primitive without Must or Wont -/

/-- C1, as stated, fails: `Panic(func() { yoda.True(true) })` returns a Truth and
leaves the guard ready, because the callable trips the guard and `Panic` recovers
it; `True(true)` invoked next, with no `Must` or `Wont` in between, returns a
Truth instead of aborting. -/
theorem C1_counterexample :
    (∀ fmt : Fmt, (Prim.callPanic ((Prim.callTrue (.bool true)).asCallable fmt)).run fmt ⟨true⟩
        = (.ok ⟨true, ""⟩, ⟨true⟩)) ∧
    (∀ fmt : Fmt, (Prim.callTrue (.bool true)).run fmt ⟨true⟩
        = (.ok ⟨true, fmt.sprintSharpV (.bool true)⟩, ⟨false⟩)) := by
  constructor <;> intro fmt <;>
    simp [Prim.run, Prim.asCallable, Panic, True, assertBool, mustBeCleanStart, misuse,
      PanicValue.recoverIsNil]

/-- C1, amended: for every pair of primitives and every argument list, if the
first returns a Truth, and the callable or property handed to it (if any) leaves
the guard as it found it, then the guard is not ready, and the second primitive
aborts with the misuse message, produces no Truth and leaves the guard ready;
`Nil` and `Panic` as the second primitive do not recover that abort. -/
theorem C1_second_primitive_aborts (fmt : Fmt) (p q : Prim) (s s1 : Globals) (t : Truth)
    (hquiet : p.quiet = true) (hp : p.run fmt s = (.ok t, s1)) :
    s1.clean_start = false ∧ q.run fmt s1 = (.panic misuse, ⟨true⟩) := by
  have h1 : s1.clean_start = false := by rw [notReady_after_run fmt p s s1 t hquiet hp]
  exact ⟨h1, run_notReady fmt q s1 h1⟩

/-- C1, amended, at `True(true)` followed by `Panic` of a callable that returns. -/
theorem C1_second_primitive_aborts_witness :
    (Prim.callTrue (.bool true)).quiet = true ∧
    ∀ fmt : Fmt, (Globals.mk false).clean_start = false ∧
      (Prim.callPanic (fun s => (.ok (), s))).run fmt ⟨false⟩ = (.panic misuse, ⟨true⟩) :=
  ⟨rfl, fun fmt => C1_second_primitive_aborts fmt (.callTrue (.bool true))
    (.callPanic (fun s => (.ok (), s))) ⟨true⟩ ⟨false⟩ ⟨true, fmt.sprintSharpV (.bool true)⟩ rfl
    (by simp [Prim.run, True, assertBool, mustBeCleanStart])⟩

/-! ## C4: the guard is not wedged by a misuse abort -/

/-- C4, as stated, fails: after the misuse abort of `True(true)` is caught, the
very next primitive, `All` of a property that itself invokes `True(true)`, does
not return a Truth: it ends with the misuse abort again, raised by the nested
primitive and not recovered by `All`. -/
theorem C4_counterexample :
    (∀ fmt : Fmt, (Prim.callTrue (.bool true)).run fmt ⟨false⟩ = (.panic misuse, ⟨true⟩)) ∧
    (∀ fmt : Fmt, (Prim.callAll ((Prim.callTrue (.bool true)).asCheck fmt)).run fmt
        ((Prim.callTrue (.bool true)).run fmt ⟨false⟩).2 = (.panic misuse, ⟨true⟩)) := by
  constructor <;> intro fmt <;>
    simp [Prim.run, Prim.asCheck, All, True, mustBeCleanStart]

/-- C4, amended: a primitive invoked while the guard is not ready aborts with the
misuse message and leaves the guard ready; the guard check of the very next
primitive then passes and flips the guard to not ready, and that primitive runs
exactly as from the initial guard: it ends with the misuse abort only if it is
`All` and the run of its property ends with it, and it returns a Truth whenever
its own body returns, leaving the guard not ready where the code handed to it
leaves the guard as it found it. -/
theorem C4_guard_not_wedged (fmt : Fmt) (p q : Prim) (s : Globals)
    (hs : s.clean_start = false) :
    p.run fmt s = (.panic misuse, ⟨true⟩) ∧
    mustBeCleanStart (p.run fmt s).2 = (.ok (), ⟨false⟩) ∧
    q.run fmt (p.run fmt s).2 = q.run fmt Globals.init ∧
    (∀ g, q.run fmt (p.run fmt s).2 = (.panic misuse, g) →
      ∃ c, q = .callAll c ∧ c ⟨false⟩ = (.panic misuse, g)) ∧
    (q.bodyReturns = true →
      ∃ t s2, q.run fmt (p.run fmt s).2 = (.ok t, s2) ∧ (q.quiet = true → s2 = ⟨false⟩)) := by
  have hp := run_notReady fmt p s hs
  refine ⟨hp, by rw [hp]; rfl, by rw [hp]; rfl, ?_, ?_⟩
  · rw [hp]
    exact fun g hg => misuse_only_from_All fmt q g hg
  · intro hq
    rw [hp]
    obtain ⟨t, s2, h⟩ := run_ready_returns fmt q ⟨true⟩ rfl hq
    exact ⟨t, s2, h, fun hquiet => notReady_after_run fmt q ⟨true⟩ s2 t hquiet h⟩

/-- C4, amended, at the scenario of `TestPanicOnWrongUse`: `True(true)` invoked
with the guard not ready, then `True(true)` again. -/
theorem C4_guard_not_wedged_witness :
    (Globals.mk false).clean_start = false ∧
    ∀ fmt : Fmt, (Prim.callTrue (.bool true)).run fmt ⟨false⟩ = (.panic misuse, ⟨true⟩) ∧
      (Prim.callTrue (.bool true)).run fmt ((Prim.callTrue (.bool true)).run fmt ⟨false⟩).2 =
        (.ok ⟨true, fmt.sprintSharpV (.bool true)⟩, ⟨false⟩) :=
  ⟨rfl, fun fmt =>
    ⟨(C4_guard_not_wedged fmt (.callTrue (.bool true)) (.callTrue (.bool true)) ⟨false⟩ rfl).1,
      by
        rw [(C4_guard_not_wedged fmt (.callTrue (.bool true)) (.callTrue (.bool true)) ⟨false⟩
          rfl).2.2.1]
        simp [Prim.run, True, assertBool, mustBeCleanStart, Globals.init]⟩⟩

/-! ## C5: Panic -/

/-- The callable `func() { panic(nil) }`: the panic is stopped by `recover()`,
which returns nil, so the result keeps its zero value and `Panic` reports
`false` for a callable that panicked. -/
theorem Panic_of_panic_nil :
    Panic (fun s => (.panic (.value .nil), s)) ⟨true⟩ = (.ok ⟨false, ""⟩, ⟨false⟩) := by
  simp [Panic, mustBeCleanStart, PanicValue.recoverIsNil]

/-- C5, as stated, fails: for the callable `func() { runtime.Goexit() }` (or one
that calls `t.FailNow`, as a failing `Must` does) `Panic` does not return: the
deferred function runs, `recover()` stops nothing, and the goroutine ends. -/
theorem C5_counterexample :
    Panic (fun s => (.goexit, s)) ⟨true⟩ = (.goexit, ⟨false⟩) := by
  simp [Panic, mustBeCleanStart]

/-- C5, amended: with the guard ready, for every callable that returns or that
panics with a value recovered as non-nil, `Panic` returns a Truth with the empty
diagnostic, whose outcome is `true` exactly when the callable (entered with the
guard not ready) panicked and `false` exactly when it returned; for a callable
that ends the goroutine `Panic` does not return. -/
theorem C5_Panic (function : Callable) (s : Globals) (hs : s.clean_start = true) :
    ((function ⟨false⟩).1.returnedOrPanicked = true →
      Panic function s = (.ok ⟨(function ⟨false⟩).1.aborted, ""⟩, (function ⟨false⟩).2)) ∧
    ((function ⟨false⟩).1 = .goexit → Panic function s = (.goexit, (function ⟨false⟩).2)) := by
  simp only [Panic, mustBeCleanStart_ready s hs]
  constructor
  · intro hf
    split <;> rename_i h <;> simp [h, Outcome.aborted, Outcome.returnedOrPanicked] at hf ⊢
    simp [hf]
  · intro hf
    split <;> rename_i h <;> simp [h] at hf ⊢

/-- C5, amended, at the two callables of the test: `func() {}` and
`func() { panic("now") }`. -/
theorem C5_Panic_witness :
    (Globals.mk true).clean_start = true ∧
    Panic (fun s => (.ok (), s)) ⟨true⟩ = (.ok ⟨false, ""⟩, ⟨false⟩) ∧
    Panic (fun s => (.panic (.value (.string "now")), s)) ⟨true⟩ = (.ok ⟨true, ""⟩, ⟨false⟩) :=
  ⟨rfl, (C5_Panic (fun s => (.ok (), s)) ⟨true⟩ rfl).1 rfl,
    (C5_Panic (fun s => (.panic (.value (.string "now")), s)) ⟨true⟩ rfl).1 rfl⟩

/-! ## C6: Nil -/

/-- C6: with the guard ready, `Nil` returns a Truth for every value and never
aborts; the outcome is `true` exactly for the untyped nil and for a nil value of
a nilable type, and `false` for every other value; for a value of a non-nilable
type the call of `IsNil` panics and the panic is recovered into `false`. -/
theorem C6_Nil (fmt : Fmt) (actual : Value) (s : Globals) (hs : s.clean_start = true) :
    Nil fmt actual s = (.ok ⟨actual.isAbsent, fmt.sprintSharpV actual⟩, ⟨false⟩) ∧
    (actual.isNilInterface = false → actual.nilable = false →
      (IsNil actual).aborted = true ∧ actual.isAbsent = false) := by
  constructor
  · cases actual <;>
      simp [Nil, mustBeCleanStart_ready s hs, TypeOf, IsNil, Value.isAbsent,
        PanicValue.recoverIsNil]
  · cases actual <;>
      simp [Value.isNilInterface, Value.nilable, IsNil, Outcome.aborted, Value.isAbsent]

/-- C6 at the values of the test: an int, a nil pointer held in an interface,
and the untyped nil. -/
theorem C6_Nil_witness :
    (Globals.mk true).clean_start = true ∧
    ∀ fmt : Fmt,
      (Nil fmt (.int 1) ⟨true⟩ = (.ok ⟨false, fmt.sprintSharpV (.int 1)⟩, ⟨false⟩)) ∧
      (Nil fmt (.nilPtr (.struct "testing.T")) ⟨true⟩ =
        (.ok ⟨true, fmt.sprintSharpV (.nilPtr (.struct "testing.T"))⟩, ⟨false⟩)) ∧
      (Nil fmt .nil ⟨true⟩ = (.ok ⟨true, fmt.sprintSharpV .nil⟩, ⟨false⟩)) :=
  ⟨rfl, fun fmt => ⟨(C6_Nil fmt (.int 1) ⟨true⟩ rfl).1,
    (C6_Nil fmt (.nilPtr (.struct "testing.T")) ⟨true⟩ rfl).1, (C6_Nil fmt .nil ⟨true⟩ rfl).1⟩⟩

/-! ## C3: Must and Wont reset the guard -/

/-- C3, as stated, fails in its last part: after a failed `Must` the guard is
ready, yet `All` of a property that itself invokes `True(true)` ends with the
misuse abort, raised by the nested primitive and not recovered by `All`. -/
theorem C3_counterexample :
    (∀ (env : Env) (be : TestingT) (s : Globals),
      (Must env ⟨false, "d"⟩ be s).2.2 = ⟨true⟩) ∧
    (∀ fmt : Fmt, (Prim.callAll ((Prim.callTrue (.bool true)).asCheck fmt)).run fmt ⟨true⟩
      = (.panic misuse, ⟨true⟩)) := by
  constructor
  · intro env be s
    simp [Must]
  · intro fmt
    simp [Prim.run, Prim.asCheck, All, True, mustBeCleanStart]

/-- C3, amended: for every Truth and every prior guard state, after `Must` or
`Wont` the guard is ready, whether the assertion passed, failed or faulted; hence
the guard check of the next primitive passes, and the next primitive ends with
the misuse abort only if it is `All` and the run of its property raises it. -/
theorem C3_guard_reset (env : Env) (the : Truth) (be : TestingT) (s : Globals) (fmt : Fmt)
    (q : Prim) :
    (Must env the be s).2.2 = ⟨true⟩ ∧ (Wont env the be s).2.2 = ⟨true⟩ ∧
    mustBeCleanStart (Must env the be s).2.2 = (.ok (), ⟨false⟩) ∧
    mustBeCleanStart (Wont env the be s).2.2 = (.ok (), ⟨false⟩) ∧
    (∀ g, q.run fmt ⟨true⟩ = (.panic misuse, g) →
      ∃ c, q = .callAll c ∧ c ⟨false⟩ = (.panic misuse, g)) := by
  have hM : (Must env the be s).2.2 = ⟨true⟩ := by
    simp only [Must]; split <;> rfl
  have hW : (Wont env the be s).2.2 = ⟨true⟩ := by
    simp only [Wont]; split <;> rfl
  exact ⟨hM, hW, by rw [hM]; rfl, by rw [hW]; rfl, fun g hq => misuse_only_from_All fmt q g hq⟩

/-! ## C10: relative -/

/-- With `os.Getwd` failing, `relative` returns the file name unchanged. -/
theorem relative_getwd_error (env : Env) (filename : String) (h : env.Getwd = none) :
    relative env filename = .ok filename := by
  simp [relative, h]

/-- A file name that does not start with the working directory is returned
unchanged. -/
theorem relative_other (env : Env) (dir filename : String) (h : env.Getwd = some dir)
    (hp : HasPrefix filename dir = false) : relative env filename = .ok filename := by
  simp [relative, h, hp]

/-- A file under the working directory, `dir` followed by one separator byte `c`
and `rest`, is rendered as `rest`. -/
theorem relative_under (env : Env) (dir rest : String) (c : Char)
    (h : env.Getwd = some dir) :
    relative env (dir ++ String.singleton c ++ rest) = .ok rest := by
  have hpre : HasPrefix (dir ++ String.singleton c ++ rest) dir = true := by
    simp [HasPrefix, String.data_append, List.isPrefixOf_iff_prefix]
  have hlen : dir.length + 1 ≤ (dir ++ String.singleton c ++ rest).length := by
    simp [String.length_append]
  have hdrop : (dir ++ String.singleton c ++ rest).data.drop (dir.length + 1) = rest.data := by
    have hsplit : (dir ++ String.singleton c ++ rest).data = (dir.data ++ [c]) ++ rest.data := by
      simp [String.data_append, String.singleton]
    rw [hsplit]
    exact List.drop_left' (by rw [List.length_append]; rfl)
  simp only [relative, h, hpre, hlen, if_true, hdrop]

/-- C10, on the code: with working directory `/a/b`, the file `/a/bc/x.go`, which
is not under it and only shares it as a string, is rendered as `/x.go`, not
unchanged; and the file name `/a/b` itself makes the slice expression panic. -/
theorem C10_relative_mangles_and_faults :
    relative ⟨some "/a/b", "/a/bc/x.go", 1, true⟩ "/a/bc/x.go" = .ok "/x.go" ∧
    relative ⟨some "/a/b", "/a/b", 1, true⟩ "/a/b" =
      .panic (.runtimeError "slice bounds out of range [5:4]") := by
  constructor <;> rfl

/-! ## C2: Must and Wont -/

/-- The failure message holds the verb, then the location `file:line`, then the
diagnostic. -/
theorem failureMessage_parts (what loc : String) (line : Int) (dump : String) :
    failureMessage what loc line dump =
      "\n" ++ (what ++ (" failed at " ++ ((loc ++ ":" ++ toString line) ++
        ("; Reason ~ " ++ (dump ++ "!!!"))))) := by
  simp [failureMessage, String.append_assoc]

/-- Where rendering the caller's location does not fault, `Must` records one
fatal failure, with the verb `Must`, the location and the diagnostic, and ends
the goroutine, exactly when the outcome is `false`; otherwise it returns and
leaves the handle untouched. -/
theorem Must_of_relative_ok (env : Env) (the : Truth) (be : TestingT) (s : Globals)
    (loc : String)
    (h : relative env (if !env.callerOk then "<unknown>" else env.callerFile) = .ok loc) :
    Must env the be s =
      if the.Value then (.ok (), be, ⟨true⟩)
      else (.goexit, be.Fatalf (failureMessage "Must" loc
        (if !env.callerOk then 0 else env.callerLine) the.Dump), ⟨true⟩) := by
  cases hv : the.Value <;> cases hok : env.callerOk <;> simp [hok] at h <;>
    simp [Must, failedTo, h, hv, hok]

/-- Where rendering the caller's location does not fault, `Wont` records one
fatal failure, with the verb `Wont`, the location and the diagnostic, and ends
the goroutine, exactly when the outcome is `true`; otherwise it returns and
leaves the handle untouched. -/
theorem Wont_of_relative_ok (env : Env) (the : Truth) (be : TestingT) (s : Globals)
    (loc : String)
    (h : relative env (if !env.callerOk then "<unknown>" else env.callerFile) = .ok loc) :
    Wont env the be s =
      if the.Value then (.goexit, be.Fatalf (failureMessage "Wont" loc
        (if !env.callerOk then 0 else env.callerLine) the.Dump), ⟨true⟩)
      else (.ok (), be, ⟨true⟩) := by
  cases hv : the.Value <;> cases hok : env.callerOk <;> simp [hok] at h <;>
    simp [Wont, failedTo, h, hv, hok]

/-- C2, on the code: a `Must` on a Truth with outcome `false`, called from the
file `/tmp/x_test.go` by a process whose working directory is the string
`/tmp/x_test.go`, records no failure on the handle: `relative` panics on the
slice expression before `Fatalf` is reached. -/
theorem C2_Must_records_nothing_on_fault :
    Must ⟨some "/tmp/x_test.go", "/tmp/x_test.go", 37, true⟩ ⟨false, "false"⟩
        TestingT.fresh ⟨false⟩ =
      (.panic (.runtimeError "slice bounds out of range [15:14]"), TestingT.fresh, ⟨true⟩) := by
  rfl

/-! ## C9: Type -/

/-- For a value with a dynamic type, `Type` returns a Truth whose outcome says
whether the name of that type is the expected text. -/
theorem Type_of_typed (fmt : Fmt) (expected : String) (actual : Value) (t : GoType)
    (s : Globals) (hs : s.clean_start = true) (ht : TypeOf actual = some t) :
    Type' fmt expected actual s =
      (.ok ⟨expected == t.String, fmt.sprintSharpV (.string expected) ++ " vs. " ++
        fmt.sprintSharpV (.string t.String)⟩, ⟨false⟩) := by
  simp [Type', mustBeCleanStart_ready s hs, typeString, ht]

/-- C9, on the code: `Type("int", nil)` with the guard ready returns no Truth; the
method call on the nil `reflect.Type` panics, and the guard stays not ready. -/
theorem C9_Type_nil_panics :
    ∀ fmt : Fmt, Type' fmt "int" .nil ⟨true⟩ =
      (.panic (.runtimeError "invalid memory address or nil pointer dereference"), ⟨false⟩) := by
  intro fmt
  rfl

/-! ## C7: Equal on a value and itself -/

/-- Go `==` on a float64 and itself fails exactly for a NaN. -/
theorem f64Eq_self (a : Nat) : f64Eq a a = !f64IsNaN a := by
  simp [f64Eq]

mutual
/-- On a value and itself `deepValueEqual` is `true` exactly when the value holds
no NaN and no non-nil function in itself, its fields or its elements. -/
theorem deepValueEqual_self : ∀ v : Value, deepValueEqual v v = v.selfEqual
  | .nil => by simp [deepValueEqual, Value.selfEqual]
  | .bool _ => by simp [deepValueEqual, Value.selfEqual]
  | .int _ => by simp [deepValueEqual, Value.selfEqual]
  | .float64 bits => by simp [deepValueEqual, Value.selfEqual, f64Eq_self]
  | .complex128 re im => by simp [deepValueEqual, Value.selfEqual, f64Eq_self]
  | .string _ => by simp [deepValueEqual, Value.selfEqual]
  | .struct _ fields => by
    simp [deepValueEqual, Value.selfEqual, deepValueEqualFields_self fields]
  | .array _ elems => by
    simp [deepValueEqual, Value.selfEqual, deepValueEqualFields_self elems]
  | .nilPtr _ => by simp [deepValueEqual, Value.selfEqual]
  | .ptr _ _ _ => by simp [deepValueEqual, Value.selfEqual]
  | .slice _ _ _ => by simp [deepValueEqual, Value.selfEqual]
  | .map _ _ _ _ _ => by simp [deepValueEqual, Value.selfEqual]
  | .chan _ _ => by simp [deepValueEqual, Value.selfEqual]
  | .func _ _ => by simp [deepValueEqual, Value.selfEqual]
/-- The loop over fields or elements, on a list and itself. -/
theorem deepValueEqualFields_self :
    ∀ fields : List Value, deepValueEqualFields fields fields = Value.selfEqualFields fields
  | [] => by simp [deepValueEqualFields, Value.selfEqualFields]
  | a :: as => by
    simp [deepValueEqualFields, Value.selfEqualFields, deepValueEqual_self a,
      deepValueEqualFields_self as]
end

/-- On a value and itself `reflect.DeepEqual` is `Value.selfEqual`. -/
theorem DeepEqual_self (v : Value) : DeepEqual v v = v.selfEqual := by
  cases v <;> simp [DeepEqual, Value.isNilInterface, deepValueEqual_self, Value.selfEqual]

/-- C7, as stated, fails: `Equal(v, v)` has outcome `false` for `v` a NaN, for `v`
a non-nil function value, for a struct that holds a NaN, and for an array that
holds a NaN. -/
theorem C7_counterexample :
    (∀ fmt : Fmt, (Equal fmt (.float64 0x7FF8000000000001) (.float64 0x7FF8000000000001)
      ⟨true⟩).1 = .ok ⟨false, fmt.sprintSharpV (.float64 0x7FF8000000000001) ++ " vs. " ++
        fmt.sprintSharpV (.float64 0x7FF8000000000001)⟩) ∧
    (∀ fmt : Fmt, (Equal fmt (.func "func()" 4198400) (.func "func()" 4198400) ⟨true⟩).1 =
      .ok ⟨false, fmt.sprintSharpV (.func "func()" 4198400) ++ " vs. " ++
        fmt.sprintSharpV (.func "func()" 4198400)⟩) ∧
    (∀ fmt : Fmt, (Equal fmt (.struct "main.P" [.float64 0x7FF8000000000001])
      (.struct "main.P" [.float64 0x7FF8000000000001]) ⟨true⟩).1 =
      .ok ⟨false, fmt.sprintSharpV (.struct "main.P" [.float64 0x7FF8000000000001]) ++ " vs. " ++
        fmt.sprintSharpV (.struct "main.P" [.float64 0x7FF8000000000001])⟩) ∧
    (∀ fmt : Fmt, (Equal fmt (.array .float64 [.float64 0x7FF8000000000001])
      (.array .float64 [.float64 0x7FF8000000000001]) ⟨true⟩).1 =
      .ok ⟨false, fmt.sprintSharpV (.array .float64 [.float64 0x7FF8000000000001]) ++ " vs. " ++
        fmt.sprintSharpV (.array .float64 [.float64 0x7FF8000000000001])⟩) := by
  refine ⟨fun fmt => ?_, fun fmt => ?_, fun fmt => ?_, fun fmt => ?_⟩ <;>
    simp [Equal, mustBeCleanStart, DeepEqual_self, Value.selfEqual, Value.selfEqualFields,
      f64IsNaN]

/-- C7, amended: with the guard ready, `Equal(v, v)` returns a Truth whose outcome
is `true` exactly when `v` is not, and holds in no field of a struct and no
element of an array (to any depth), a NaN, a complex number with a NaN part, or
a non-nil function value; what lies behind a pointer, a slice or a map does not
count, since each of these is deeply equal to itself by identity. -/
theorem C7_Equal_self (fmt : Fmt) (v : Value) (s : Globals) (hs : s.clean_start = true) :
    Equal fmt v v s =
      (.ok ⟨v.selfEqual, fmt.sprintSharpV v ++ " vs. " ++ fmt.sprintSharpV v⟩, ⟨false⟩) := by
  simp [Equal, mustBeCleanStart_ready s hs, DeepEqual_self]

/-- C7, amended, at the int `2`, at a struct that holds a float and a string, and
at a slice and a pointer that hold a NaN. -/
theorem C7_Equal_self_witness :
    (Globals.mk true).clean_start = true ∧
    ∀ fmt : Fmt,
      (Equal fmt (.int 2) (.int 2) ⟨true⟩).1 =
        .ok ⟨true, fmt.sprintSharpV (.int 2) ++ " vs. " ++ fmt.sprintSharpV (.int 2)⟩ ∧
      (Equal fmt (.struct "main.P" [.float64 0x400921F9F01B866E, .string "hupsis"])
        (.struct "main.P" [.float64 0x400921F9F01B866E, .string "hupsis"]) ⟨true⟩).1 =
        .ok ⟨true, fmt.sprintSharpV
            (.struct "main.P" [.float64 0x400921F9F01B866E, .string "hupsis"]) ++ " vs. " ++
          fmt.sprintSharpV (.struct "main.P" [.float64 0x400921F9F01B866E, .string "hupsis"])⟩ ∧
      (Equal fmt (.slice .float64 824633796608 [.float64 0x7FF8000000000001])
        (.slice .float64 824633796608 [.float64 0x7FF8000000000001]) ⟨true⟩).1 =
        .ok ⟨true, fmt.sprintSharpV
            (.slice .float64 824633796608 [.float64 0x7FF8000000000001]) ++ " vs. " ++
          fmt.sprintSharpV (.slice .float64 824633796608 [.float64 0x7FF8000000000001])⟩ ∧
      (Equal fmt (.ptr .float64 824633796608 (.float64 0x7FF8000000000001))
        (.ptr .float64 824633796608 (.float64 0x7FF8000000000001)) ⟨true⟩).1 =
        .ok ⟨true, fmt.sprintSharpV
            (.ptr .float64 824633796608 (.float64 0x7FF8000000000001)) ++ " vs. " ++
          fmt.sprintSharpV (.ptr .float64 824633796608 (.float64 0x7FF8000000000001))⟩ :=
  ⟨rfl, fun fmt => ⟨by
      rw [C7_Equal_self fmt (.int 2) ⟨true⟩ rfl]; simp [Value.selfEqual], by
      rw [C7_Equal_self fmt _ ⟨true⟩ rfl]
      simp [Value.selfEqual, Value.selfEqualFields, f64IsNaN], by
      rw [C7_Equal_self fmt _ ⟨true⟩ rfl]; simp [Value.selfEqual], by
      rw [C7_Equal_self fmt _ ⟨true⟩ rfl]; simp [Value.selfEqual]⟩⟩

/-! ## C8: Same on two pointers -/

/-- The sixteen hexadecimal digits are distinct. -/
theorem digitChar_inj (a b : Nat) (ha : a < 16) (hb : b < 16)
    (h : Nat.digitChar a = Nat.digitChar b) : a = b := by
  interval_cases a <;> interval_cases b <;> first | rfl | (exact absurd h (by decide))

/-- A hexadecimal digit is not a blank. -/
theorem digitChar_ne_blank (a : Nat) (ha : a < 16) : Nat.digitChar a ≠ ' ' := by
  interval_cases a <;> decide

theorem hexDigits_ne_nil (n : Nat) : hexDigits n ≠ [] := by
  rw [hexDigits]
  split <;> simp

/-- No blank among the hexadecimal digits of a number. -/
theorem blank_not_mem_hexDigits (n : Nat) : ' ' ∉ hexDigits n := by
  induction n using Nat.strong_induction_on with
  | _ n ih =>
    rw [hexDigits]
    split
    · rename_i h
      simpa using (digitChar_ne_blank n h).symm
    · rename_i h
      have h1 := ih (n / 16) (by omega)
      have h2 := digitChar_ne_blank (n % 16) (by omega)
      simp [h1, h2.symm]

/-- Two numbers with the same hexadecimal digits are equal. -/
theorem hexDigits_inj (a b : Nat) (h : hexDigits a = hexDigits b) : a = b := by
  induction a using Nat.strong_induction_on generalizing b with
  | _ a ih =>
    rw [hexDigits.eq_1 a, hexDigits.eq_1 b] at h
    by_cases ha : a < 16 <;> by_cases hb : b < 16
    · simp only [ha, hb, if_true, List.cons.injEq, and_true] at h
      exact digitChar_inj a b ha hb h
    · simp only [ha, hb, if_true, if_false] at h
      have hl := congrArg List.length h
      have := hexDigits_ne_nil (b / 16)
      have : (hexDigits (b / 16)).length ≠ 0 := by simpa using this
      simp only [List.length_append, List.length_singleton] at hl
      omega
    · simp only [ha, hb, if_true, if_false] at h
      have hl := congrArg List.length h
      have := hexDigits_ne_nil (a / 16)
      have : (hexDigits (a / 16)).length ≠ 0 := by simpa using this
      simp only [List.length_append, List.length_singleton] at hl
      omega
    · simp only [ha, hb, if_false] at h
      have h2 := List.append_inj' h rfl
      have hq := ih (a / 16) (by omega) (b / 16) h2.1
      have hr := digitChar_inj (a % 16) (b % 16) (by omega) (by omega) (by simpa using h2.2)
      omega

/-- Two texts that agree, each a blank-free part followed by a blank and a rest,
agree on the blank-free part. -/
theorem eq_of_append_blank (c : Char) (l1 l2 r1 r2 : List Char) (h1 : c ∉ l1) (h2 : c ∉ l2)
    (h : l1 ++ c :: r1 = l2 ++ c :: r2) : l1 = l2 := by
  induction l1 generalizing l2 with
  | nil =>
    cases l2 with
    | nil => rfl
    | cons x xs =>
      simp only [List.nil_append, List.cons_append, List.cons.injEq] at h
      simp [h.1] at h2
  | cons x xs ih =>
    cases l2 with
    | nil =>
      simp only [List.nil_append, List.cons_append, List.cons.injEq] at h
      simp [h.1] at h1
    | cons y ys =>
      simp only [List.cons_append, List.cons.injEq] at h
      simp only [List.mem_cons, not_or] at h1 h2
      rw [h.1, ih ys h1.2 h2.2 h.2]

/-- The `%p` texts of two pointers at different addresses make `nice` differ. -/
theorem nice_ptr_ne (fmt : Fmt) (e1 e2 : GoType) (a b : Nat) (v w : Value) (hab : a ≠ b) :
    nice fmt (.ptr e1 a v) ≠ nice fmt (.ptr e2 b w) := by
  intro h
  have hd := congrArg String.data h
  simp only [nice, sprintP, String.data_append] at hd
  have hd2 : hexDigits a ++ ' ' :: (fmt.sprintSharpV (.ptr e1 a v)).data =
      hexDigits b ++ ' ' :: (fmt.sprintSharpV (.ptr e2 b w)).data := by
    simpa using hd
  exact hab (hexDigits_inj a b (eq_of_append_blank ' ' _ _ _ _ (blank_not_mem_hexDigits a)
    (blank_not_mem_hexDigits b) hd2))

/-- C8: with the guard ready, `Same` returns the conjunction of the equality of
the two `nice` texts and of `reflect.DeepEqual`; on two pointers to copies of a
value `v` at different addresses the outcome is `false`, although the two
pointers are deeply equal whenever `v` is deeply equal to itself. -/
theorem C8_Same (fmt : Fmt) (elem : GoType) (v : Value) (a b : Nat) (s : Globals)
    (hs : s.clean_start = true) (hab : a ≠ b) :
    Same fmt (.ptr elem a v) (.ptr elem b v) s =
      (.ok ⟨false, fmt.sprintSharpV (.ptr elem b v)⟩, ⟨false⟩) ∧
    DeepEqual (.ptr elem b v) (.ptr elem a v) = deepValueEqual v v ∧
    ∀ expected actual : Value, Same fmt expected actual s =
      (.ok ⟨nice fmt expected == nice fmt actual && DeepEqual actual expected,
        fmt.sprintSharpV actual⟩, ⟨false⟩) := by
  have hgen : ∀ expected actual : Value, Same fmt expected actual s =
      (.ok ⟨nice fmt expected == nice fmt actual && DeepEqual actual expected,
        fmt.sprintSharpV actual⟩, ⟨false⟩) := by
    intro expected actual
    simp [Same, mustBeCleanStart_ready s hs]
  refine ⟨?_, ?_, hgen⟩
  · rw [hgen]
    have hne := nice_ptr_ne fmt elem elem a b v v hab
    simp [hne]
  · have hba : (b == a) = false := by simpa using fun h => hab h.symm
    simp [DeepEqual, Value.isNilInterface, deepValueEqual, hba]

/-- Two pointers to equal values at one address, like the two `&Nothing{}` of the
test, whose zero-size allocations share their address, are `Same`, whatever the
pointee: the two `nice` texts coincide and a pointer is deeply equal to itself. -/
theorem Same_same_address (fmt : Fmt) (elem : GoType) (v : Value) (a : Nat) (s : Globals)
    (hs : s.clean_start = true) :
    Same fmt (.ptr elem a v) (.ptr elem a v) s =
      (.ok ⟨true, fmt.sprintSharpV (.ptr elem a v)⟩, ⟨false⟩) := by
  simp [Same, mustBeCleanStart_ready s hs, DeepEqual, Value.isNilInterface, deepValueEqual]

/-- C8 at the pointers of the test, `&Example{1}` and `&Example{1}`, allocated at
two addresses. -/
theorem C8_Same_witness :
    (Globals.mk true).clean_start = true ∧ (824633796608 : Nat) ≠ 824633796616 ∧
    ∀ fmt : Fmt,
      (Same fmt (.ptr (.struct "yoda_test.Example") 824633796608
          (.struct "yoda_test.Example" [.int 1]))
        (.ptr (.struct "yoda_test.Example") 824633796616
          (.struct "yoda_test.Example" [.int 1])) ⟨true⟩).1 =
        .ok ⟨false, fmt.sprintSharpV (.ptr (.struct "yoda_test.Example") 824633796616
          (.struct "yoda_test.Example" [.int 1]))⟩ :=
  ⟨rfl, by decide, fun fmt => by
    rw [(C8_Same fmt (.struct "yoda_test.Example") (.struct "yoda_test.Example" [.int 1])
      824633796608 824633796616 ⟨true⟩ rfl (by decide)).1]⟩

end Yoda
